import Mathlib

/-!
Shallow embedding of `main_rag_app.py` (Enhanced RAG API, Cognio-so/CustomGpt-Python).

The module-level mutable state of the Python program (the `active_rag_sessions`
dict guarded by `sessions_lock`, the local filesystem paths, the calls made to
the external `EnhancedRAG` engine and to `CloudflareR2Storage`) is modelled by
explicit state passing.  Every request handler body that the claims mention is
transcribed as a pure Lean function from the ambient environment, the current
state and the request data to the new state and the HTTP-level response.
External collaborators (R2 storage uploads/downloads, the engine's index
updates) are passed in as oracle functions, and the calls the code makes to
them are recorded in the result so that theorems can speak about which engine
operations were invoked and with which arguments.

Python `os.getenv` is modelled by `Option String` environment fields;
Python truthiness of an optional string (`if not openai_api_key:` treats both
`None` and `""` as missing) is modelled by `truthy`.  The `EnhancedRAG` object
identity (reference identity of the shared handle) is modelled by a fresh
`instanceId` drawn from a counter in the registry state, incremented exactly
when the Python code constructs a new `EnhancedRAG`.
-/

namespace RagApp

/-- Python truthiness of an `Optional[str]`: `None` and `""` are falsy. -/
def truthy : Option String → Bool
  | none => false
  | some s => !s.isEmpty

/-- Model of `os.getenv(name, default)`: the stored value if the variable is set, else the default. -/
def getenvD (v : Option String) (d : String) : String :=
  v.getD d

/-- Model of `default_model or os.getenv("DEFAULT_OPENAI_MODEL", "gpt-4o")`: Python `or`
picks the left operand when it is truthy, otherwise the right one. -/
def orTruthy (m : Option String) (d : String) : String :=
  match m with
  | none => d
  | some s => if s.isEmpty then d else s

/-- Lookup in a Python dict modelled as an association list (first match). -/
def lookupStr {α : Type} : List (String × α) → String → Option α
  | [], _ => none
  | (k, v) :: rest, k0 => if k = k0 then some v else lookupStr rest k0

/-- Assignment `d[k] = v` on a Python dict: update the existing entry in place, else append. -/
def dictInsert {α : Type} : List (String × α) → String → α → List (String × α)
  | [], k, v => [(k, v)]
  | (k', v') :: rest, k, v =>
    if k' = k then (k', v) :: rest else (k', v') :: dictInsert rest k v

/-- Removal `d.pop(k)` on a Python dict: drop the entry with the given key. -/
def dictRemove {α : Type} : List (String × α) → String → List (String × α)
  | [], _ => []
  | (k', v') :: rest, k =>
    if k' = k then rest else (k', v') :: dictRemove rest k

/-- The keys of the modelled dict. -/
def keysOf {α : Type} (l : List (String × α)) : List String :=
  l.map Prod.fst

/-- A Python dict has at most one entry per key; the assoc-list model keeps
this as an invariant. -/
def NodupKeys {α : Type} (l : List (String × α)) : Prop :=
  (keysOf l).Nodup

/-- The mutable per-tenant `EnhancedRAG` handle: the defaults the registry
mutates in place, plus an `instanceId` modelling Python object identity. -/
structure RAG where
  instanceId : Nat
  gpt_id : String
  default_llm_model_name : String
  default_system_prompt : Option String
  default_use_hybrid_search : Option Bool
  deriving Repr, DecidableEq

/-- The relevant environment variables read by `main_rag_app.py`. -/
structure Env where
  openai_api_key : Option String
  qdrant_url : Option String
  qdrant_api_key : Option String
  default_openai_model : Option String
  environment_type : Option String
  local_data_path : Option String
  deriving Repr, DecidableEq

/-- The `active_rag_sessions` dict plus an allocation counter for fresh object identities. -/
structure RegState where
  active_rag_sessions : List (String × RAG)
  nextId : Nat
  deriving Repr, DecidableEq

/-- The `EnhancedRAG(...)` construction on the creation path of
`get_or_create_rag_instance` (lines 114-124 of `main_rag_app.py`). -/
def buildRag (env : Env) (nid : Nat) (gpt_id : String)
    (default_model default_system_prompt : Option String)
    (default_use_hybrid_search : Option Bool) : RAG :=
  { instanceId := nid
    gpt_id := gpt_id
    default_llm_model_name :=
      orTruthy default_model (getenvD env.default_openai_model "gpt-4o")
    default_system_prompt := default_system_prompt
    default_use_hybrid_search := default_use_hybrid_search }

/-- The in-place default update on the reuse path of
`get_or_create_rag_instance` (lines 126-132):
`if default_model: ...`, `if default_system_prompt: ...`,
`if default_use_hybrid_search is not None: ...`. -/
def mergeDefaults (r : RAG) (default_model default_system_prompt : Option String)
    (default_use_hybrid_search : Option Bool) : RAG :=
  let r1 :=
    match default_model with
    | none => r
    | some s => if s.isEmpty then r else { r with default_llm_model_name := s }
  let r2 :=
    match default_system_prompt with
    | none => r1
    | some s => if s.isEmpty then r1 else { r1 with default_system_prompt := some s }
  match default_use_hybrid_search with
  | none => r2
  | some b => { r2 with default_use_hybrid_search := some b }

/-- Transcription of `get_or_create_rag_instance` (lines 92-135).  The whole body runs under
`sessions_lock`, so one call is one atomic state transition.  A `ValueError`
raised for missing configuration is the `Except.error` case; the registry
state is returned unchanged in that case because the exception propagates
before the dict is modified. -/
def get_or_create_rag_instance (env : Env) (st : RegState)
    (user_email gpt_id : String)
    (default_model default_system_prompt : Option String)
    (default_use_hybrid_search : Option Bool) : RegState × Except String RAG :=
  match lookupStr st.active_rag_sessions gpt_id with
  | none =>
    if truthy env.openai_api_key = false then
      (st, .error "OPENAI_API_KEY not set in environment.")
    else if truthy env.qdrant_url = false then
      (st, .error "QDRANT_URL not set in environment.")
    else
      let r := buildRag env st.nextId gpt_id default_model default_system_prompt
        default_use_hybrid_search
      ({ active_rag_sessions := dictInsert st.active_rag_sessions gpt_id r
         nextId := st.nextId + 1 }, .ok r)
  | some r0 =>
    let r := mergeDefaults r0 default_model default_system_prompt default_use_hybrid_search
    ({ st with active_rag_sessions := dictInsert st.active_rag_sessions gpt_id r }, .ok r)

/-- Transcription of `get_session_id` (lines 88-90). -/
def get_session_id (user_email gpt_id : String) : String :=
  "user_" ++ ((user_email.replace "@" "_").replace "." "_") ++ "_gpt_" ++ gpt_id

/-! ## Ingestion pipeline -/

/-- Python `s.lower()`, mapped over the underlying character list so that it
computes in the kernel. -/
def strToLower (s : String) : String :=
  ⟨s.data.map Char.toLower⟩

/-- Python `s.startswith(p)`: the character sequence of `p` is an initial
segment of that of `s` (stated over the underlying character lists so that it
computes in the kernel). -/
def strStartsWith (s p : String) : Bool :=
  p.data.isPrefixOf s.data

/-- The per-URL scheme check of `_process_kb_urls_task` (line 190):
`url.startswith('http://') or url.startswith('https://')`. -/
def validScheme (url : String) : Bool :=
  strStartsWith url "http://" || strStartsWith url "https://"

/-- The fetch loop of `_process_kb_urls_task` (lines 188-200).  `fetch` is the
oracle for `r2_storage.download_file_from_url`, returning Python's
`(success, r2_path_or_error)` pair.  First component of the result is
`r2_kb_keys_or_urls_for_indexing`; the second collects the per-item failures
(invalid scheme, recorded by the `Skipping invalid KB URL` log, and failed
fetches, recorded by the `Failed to process KB URL` log). -/
def kbUrlLoop (fetch : String → Bool × String) : List String → List String × List String
  | [] => ([], [])
  | url :: rest =>
    if validScheme url then
      match fetch url with
      | (true, p) =>
        let q := kbUrlLoop fetch rest
        (p :: q.1, q.2)
      | (false, _) =>
        let q := kbUrlLoop fetch rest
        (q.1, url :: q.2)
    else
      let q := kbUrlLoop fetch rest
      (q.1, url :: q.2)

/-- Result of one run of the background KB-URL ingestion job. -/
structure KbTaskResult where
  /-- `r2_kb_keys_or_urls_for_indexing`: locations of successfully stored items. -/
  locations : List String
  /-- URLs that failed per-item (bad scheme or failed fetch). -/
  failures : List String
  /-- Arguments of every `rag.update_knowledge_base_from_r2` invocation made. -/
  engineCalls : List (List String)
  deriving Repr, DecidableEq

/-- Transcription of `_process_kb_urls_task` (lines 186-206): run the fetch loop, then invoke
the engine's index update only when the aggregate location list is non-empty
(line 202 `if r2_kb_keys_or_urls_for_indexing:`). -/
def process_kb_urls_task (fetch : String → Bool × String) (urls : List String) :
    KbTaskResult :=
  let q := kbUrlLoop fetch urls
  { locations := q.1
    failures := q.2
    engineCalls := if q.1.isEmpty then [] else [q.1] }

/-- The `FileUploadInfoResponse` model (lines 73-77). -/
structure FileUploadInfoResponse where
  filename : String
  stored_url_or_key : String
  status : String
  error_message : Option String
  deriving Repr, DecidableEq

/-- Transcription of `_process_uploaded_file_to_r2` (lines 137-170).  `upload` is the oracle for
`r2_storage.upload_file`, returning `(success, r2_path_or_error)`; the Python
function catches every exception, so it always returns a response. -/
def process_uploaded_file_to_r2 (upload : String → Bool × String)
    (filename : String) : FileUploadInfoResponse :=
  match upload filename with
  | (true, path) =>
    { filename := filename, stored_url_or_key := path, status := "success"
      error_message := none }
  | (false, err) =>
    { filename := filename, stored_url_or_key := "", status := "failure"
      error_message := some err }

/-- The aggregation loop of `upload_documents_endpoint` (lines 231-235) and of
`upload_chat_files_endpoint` (lines 411-415): the stored locations of the
files whose upload succeeded (`result.status == "success" and
result.stored_url_or_key`), in order. -/
def storedUrls (upload : String → Bool × String) (files : List String) : List String :=
  (files.map (process_uploaded_file_to_r2 upload)).filterMap fun r =>
    if r.status == "success" && !r.stored_url_or_key.isEmpty then
      some r.stored_url_or_key
    else none

/-- Response of `upload_documents_endpoint`; `indexTask` records the background
indexing job scheduled via `background_tasks.add_task`, as
`(is_user_doc, keys)`, or `none` when no job was scheduled. -/
structure UploadDocsResponse where
  status_code : Nat
  message : String
  upload_results : List FileUploadInfoResponse
  indexTask : Option (Bool × List String)
  deriving Repr, DecidableEq

/-- Transcription of `upload_documents_endpoint` (lines 219-263).  When every upload fails the
handler returns 400 before touching the registry (line 237); otherwise it
resolves the session (an uncaught `ValueError` there is the `Except.error`
case) and schedules the background indexing task. -/
def upload_documents_endpoint (env : Env) (st : RegState)
    (upload : String → Bool × String) (files : List String)
    (user_email gpt_id is_user_document : String) :
    RegState × Except String UploadDocsResponse :=
  let is_user_doc_bool := strToLower is_user_document == "true"
  let processing_results := files.map (process_uploaded_file_to_r2 upload)
  let r2_keys := storedUrls upload files
  if r2_keys.isEmpty then
    (st, .ok { status_code := 400
               message := "No files were successfully uploaded to R2."
               upload_results := processing_results
               indexTask := none })
  else
    match get_or_create_rag_instance env st user_email gpt_id none none (some false) with
    | (st1, .error e) => (st1, .error e)
    | (st1, .ok _) =>
      (st1, .ok { status_code := 202
                  message := toString r2_keys.length ++ " files accepted for " ++
                    (if is_user_doc_bool then "user-specific" else "knowledge base") ++
                    " indexing. Processing in background."
                  upload_results := processing_results
                  indexTask := some (is_user_doc_bool, r2_keys) })

/-! ## Streaming chat controller -/

/-- One streamed chunk, opaque to the controller (the dict yielded by
`rag_instance.query_stream`, prior to JSON serialization). -/
abbrev Chunk := String

/-- What the engine's `query_stream` delivers to the `async for` loop of
`generate` (lines 300-310): the fragments yielded before the loop ends, and
the way it ends — `none` for normal exhaustion, `some msg` when the engine
raises mid-stream (the message of the caught exception, line 311). -/
structure EngineStream where
  fragments : List Chunk
  terminal : Option String
  deriving Repr, DecidableEq

/-- An emitted SSE frame.  A data frame carries an engine chunk; the error
frame carries the distinguished `error_chunk` dict built at lines 313-316
(`"type": "error"`), so the two are distinguished by construction. -/
inductive SSEFrame where
  | data (chunk : Chunk) : SSEFrame
  | errorFrame (msg : String) : SSEFrame
  deriving Repr, DecidableEq

/-- Is this frame the distinguished error frame? -/
def isErrorFrame : SSEFrame → Bool
  | .errorFrame _ => true
  | .data _ => false

/-- Sequential transcription of the `generate` generator body (lines 298-317):
yield one data frame per fragment in delivery order; if the engine raised
after those fragments, yield exactly one error frame and stop. -/
def runList : List Chunk → Option String → List SSEFrame
  | c :: rest, t => .data c :: runList rest t
  | [], some m => [.errorFrame m]
  | [], none => []

/-- The complete frame sequence the `generate` generator produces for a given
engine stream, when the consumer never disconnects. -/
def generate (es : EngineStream) : List SSEFrame :=
  runList es.fragments es.terminal

/-- Rendering of a frame to wire format (line 310 and line 317):
`f"data: {json.dumps(chunk)}\n\n"`.  `dumps` is the oracle for `json.dumps`
on an engine chunk and `errEnc` the oracle for `json.dumps` on the
`error_chunk` dict built from the message. -/
def renderFrame (dumps errEnc : String → String) : SSEFrame → String
  | .data c => "data: " ++ dumps c ++ "\n\n"
  | .errorFrame m => "data: " ++ errEnc m ++ "\n\n"

/-- State of the suspended `generate` generator between two yields. -/
inductive GenState where
  | streaming (rest : List Chunk) (terminal : Option String) : GenState
  | closed : GenState
  deriving Repr, DecidableEq

/-- One resumption of the generator: produce the next frame and the next
suspended state, or `none` when the generator is exhausted. -/
def genStep : GenState → Option (SSEFrame × GenState)
  | .streaming (c :: rest) t => some (.data c, .streaming rest t)
  | .streaming [] (some m) => some (.errorFrame m, .closed)
  | .streaming [] none => none
  | .closed => none

/-- The frames still to come from a suspended generator state. -/
def runFrom : GenState → List SSEFrame
  | .streaming l t => runList l t
  | .closed => []

/-- A consumer that pulls at most `k` frames and then disconnects: each
suspension point between frames is the cancellation checkpoint, and when the
budget is exhausted the generator is closed and produces nothing further
(Python closes the async generator with `GeneratorExit` at the suspension
point once the client disconnects). -/
def consume (s : GenState) : Nat → List SSEFrame
  | 0 => []
  | k + 1 =>
    match genStep s with
    | none => []
    | some (f, s1) => f :: consume s1 k

/-! ## Reset endpoint and chat-files upload -/

/-- Model of `LOCAL_KB_INDEX_PATH_TEMPLATE.format(gpt_id=gpt_id)` (lines 37-38):
`os.path.join(LOCAL_DATA_BASE_PATH, "kb_indexes", gpt_id)`. -/
def kbIndexPath (env : Env) (gpt_id : String) : String :=
  getenvD env.local_data_path "local_rag_data" ++ "/kb_indexes/" ++ gpt_id

/-- Process state visible to the reset endpoint: the registry, the set of
locally existing filesystem paths, and the record of `clear_all_context`
teardown invocations (by instance identity). -/
structure AppState where
  reg : RegState
  fsPaths : List String
  teardownCalls : List Nat
  deriving Repr, DecidableEq

/-- HTTP status of the reset endpoint's response. -/
structure ResetResponse where
  status_code : Nat
  deriving Repr, DecidableEq

/-- Transcription of `dev_reset_gpt_context_endpoint` (lines 464-485): 403
outside development mode; otherwise, for a present key, the try block at
lines 471-480 first pops the session from the dict (line 472, and the except
branch does not restore it), then awaits its `clear_all_context` teardown
(line 473) and deletes the local KB index directory if it exists (lines
475-477, `shutil.rmtree` guarded by `os.path.exists`), returning 200; an
exception raised by the teardown or by `rmtree` is caught at lines 481-483
and yields a 500 response with the purge not performed (a failed `rmtree` is
modelled as leaving the path in place).  `teardown` is the oracle for
`clear_all_context` on the popped handle and `rmtree` the oracle for
`shutil.rmtree`; the invocation of the teardown is recorded whether or not
it raises. -/
def dev_reset_gpt_context_endpoint (env : Env)
    (teardown : RAG → Except String Unit) (rmtree : String → Except String Unit)
    (s : AppState) (gpt_id : String) : AppState × ResetResponse :=
  if strToLower (getenvD env.environment_type "production") ≠ "development" then
    (s, { status_code := 403 })
  else
    match lookupStr s.reg.active_rag_sessions gpt_id with
    | some r =>
      let s1 : AppState :=
        { reg := { s.reg with
             active_rag_sessions := dictRemove s.reg.active_rag_sessions gpt_id }
          fsPaths := s.fsPaths
          teardownCalls := s.teardownCalls ++ [r.instanceId] }
      match teardown r with
      | .error _ => (s1, { status_code := 500 })
      | .ok _ =>
        if s1.fsPaths.contains (kbIndexPath env gpt_id) then
          match rmtree (kbIndexPath env gpt_id) with
          | .error _ => (s1, { status_code := 500 })
          | .ok _ =>
            ({ s1 with fsPaths := s1.fsPaths.filter (fun p => p ≠ kbIndexPath env gpt_id) },
             { status_code := 200 })
        else
          (s1, { status_code := 200 })
    | none => (s, { status_code := 404 })

/-- The synchronous index update of `upload_chat_files_endpoint`
(lines 427-430): `update_user_documents_from_r2(session_id, file_urls)` when
`is_user_document.lower() == "true"`, else
`update_knowledge_base_from_r2(file_urls)`. -/
def chatIndexCall (updUser : String → List String → Except String Unit)
    (updKb : List String → Except String Unit)
    (is_user_document session_id : String) (file_urls : List String) :
    Except String Unit :=
  if strToLower is_user_document == "true" then updUser session_id file_urls
  else updKb file_urls

/-- Response body of `upload_chat_files_endpoint` (lines 434-446). -/
structure ChatFilesResponse where
  success : Bool
  message : String
  file_urls : List String
  processing : Bool
  deriving Repr, DecidableEq

/-- Transcription of `upload_chat_files_endpoint` (lines 393-446).  `upload` is the R2 upload
oracle; `updUser` and `updKb` are the oracles for the engine's synchronous
`update_user_documents_from_r2` and `update_knowledge_base_from_r2` (a raised
exception is the `Except.error` case, caught at line 432).  The result's
first component records the one engine index invocation performed, if any,
as `(is_user_doc, file_urls)`: indexing happens synchronously, before the
returned response is produced. -/
def upload_chat_files_endpoint (env : Env) (st : RegState)
    (upload : String → Bool × String)
    (updUser : String → List String → Except String Unit)
    (updKb : List String → Except String Unit)
    (files : List String) (user_email gpt_id gpt_name : String)
    (is_user_document : String) :
    RegState × Except String (Option (Bool × List String) × ChatFilesResponse) :=
  let is_user_doc_bool := strToLower is_user_document == "true"
  let file_urls := storedUrls upload files
  match get_or_create_rag_instance env st user_email gpt_id none none (some false) with
  | (st1, .error e) => (st1, .error e)
  | (st1, .ok _) =>
    if file_urls.isEmpty then
      (st1, .ok (none,
        { success := true
          message := "Processed and indexed 0 files"
          file_urls := []
          processing := false }))
    else
      match chatIndexCall updUser updKb is_user_document
        (get_session_id user_email gpt_id) file_urls with
      | .ok _ =>
        (st1, .ok (some (is_user_doc_bool, file_urls),
          { success := true
            message := "Processed and indexed " ++ toString file_urls.length ++ " files"
            file_urls := file_urls
            processing := decide (0 < file_urls.length) }))
      | .error e =>
        (st1, .ok (some (is_user_doc_bool, file_urls),
          { success := false
            message := "Failed to index " ++ toString file_urls.length ++ " files: " ++ e
            file_urls := file_urls
            processing := false }))

/-- One atomic `get_or_create_rag_instance` call's override arguments
(`default_model`, `default_system_prompt`, `default_use_hybrid_search`). -/
structure CallArgs where
  model : Option String
  system_prompt : Option String
  hybrid : Option Bool
  deriving Repr, DecidableEq

/-- A sequence of `get_or_create_rag_instance` calls for the same `gpt_id`,
executed in some serial order: because the whole body runs under the single
`sessions_lock`, any interleaving of N concurrent calls is equivalent to some
serial order, which this fold models. -/
def runCalls (env : Env) (user_email gpt_id : String) :
    RegState → List CallArgs → RegState × List (Except String RAG)
  | st, [] => (st, [])
  | st, a :: rest =>
    let p := get_or_create_rag_instance env st user_email gpt_id
      a.model a.system_prompt a.hybrid
    let q := runCalls env user_email gpt_id p.1 rest
    (q.1, p.2 :: q.2)

/-! ## Concrete inputs used by counterexamples and witnesses -/

/-- A configuration with all mandatory credentials present. -/
def exEnv : Env :=
  { openai_api_key := some "sk-test"
    qdrant_url := some "http://qdrant.local:6333"
    qdrant_api_key := none
    default_openai_model := none
    environment_type := none
    local_data_path := none }

/-- An existing tenant session whose hybrid-search default is `true`. -/
def exRagTrue : RAG :=
  { instanceId := 0
    gpt_id := "g1"
    default_llm_model_name := "gpt-4o"
    default_system_prompt := some "be nice"
    default_use_hybrid_search := some true }

/-- A registry holding exactly the session `exRagTrue` under key `"g1"`. -/
def exStOne : RegState :=
  { active_rag_sessions := [("g1", exRagTrue)], nextId := 1 }

/-- The empty registry used by witnesses. -/
def exStEmpty : RegState := { active_rag_sessions := [], nextId := 0 }

/-- A configuration with OPENAI_API_KEY missing. -/
def exEnvMissing : Env :=
  { openai_api_key := none
    qdrant_url := some "http://qdrant.local:6333"
    qdrant_api_key := none
    default_openai_model := none
    environment_type := none
    local_data_path := none }

/-- A storage oracle on which every upload fails. -/
def exUploadFail : String → Bool × String := fun _ => (false, "R2 unavailable")

/-- A fetch oracle on which every download fails. -/
def exFetchFail : String → Bool × String := fun _ => (false, "connection refused")

/-- A fetch oracle on which every download succeeds, storing under `r2/`. -/
def exFetchOk : String → Bool × String := fun u => (true, "r2/" ++ u)

/-- The three-URL example: one URL uses an unsupported scheme. -/
def exUrls3 : List String := ["http://a.example/x.pdf", "ftp://b.example/y.pdf",
  "https://c.example/z.pdf"]

/-- A development-mode configuration. -/
def exEnvDev : Env :=
  { openai_api_key := some "sk-test"
    qdrant_url := some "http://qdrant.local:6333"
    qdrant_api_key := none
    default_openai_model := none
    environment_type := some "development"
    local_data_path := none }

/-- A process state holding session `exRagTrue` for key `"g1"` and its local
KB index directory. -/
def exAppState : AppState :=
  { reg := exStOne
    fsPaths := ["local_rag_data/kb_indexes/g1"]
    teardownCalls := [] }

/-- An upload oracle on which every upload succeeds, storing under `r2/`. -/
def exUploadOk : String → Bool × String := fun f => (true, "r2/" ++ f)

/-- A user-documents index oracle that fails with a fixed message. -/
def exUpdUserFail : String → List String → Except String Unit :=
  fun _ _ => .error "qdrant write timeout"

/-- A knowledge-base index oracle that succeeds. -/
def exUpdKbOk : List String → Except String Unit := fun _ => .ok ()

/-- A `clear_all_context` teardown oracle that succeeds. -/
def exTeardownOk : RAG → Except String Unit := fun _ => .ok ()

/-- A `shutil.rmtree` oracle that succeeds. -/
def exRmtreeOk : String → Except String Unit := fun _ => .ok ()

/-! ## Helper lemmas about the dict model -/

theorem lookup_dictInsert_self {α : Type} (l : List (String × α)) (k : String) (v : α) :
    lookupStr (dictInsert l k v) k = some v := by
  induction l with
  | nil => simp [dictInsert, lookupStr]
  | cons hd tl ih =>
    obtain ⟨k1, v1⟩ := hd
    by_cases h : k1 = k
    · subst h; simp [dictInsert, lookupStr]
    · simp [dictInsert, lookupStr, h, ih]

theorem lookup_dictInsert_ne {α : Type} (l : List (String × α)) (k k' : String) (v : α)
    (h : k ≠ k') : lookupStr (dictInsert l k v) k' = lookupStr l k' := by
  induction l with
  | nil => simp [dictInsert, lookupStr, h]
  | cons hd tl ih =>
    obtain ⟨k1, v1⟩ := hd
    by_cases h1 : k1 = k
    · subst h1; simp [dictInsert, lookupStr, h]
    · simp [dictInsert, lookupStr, h1, ih]

theorem keysOf_cons {α : Type} (k : String) (v : α) (l : List (String × α)) :
    keysOf ((k, v) :: l) = k :: keysOf l := rfl

theorem keysOf_dictInsert {α : Type} (l : List (String × α)) (k : String) (v : α) :
    keysOf (dictInsert l k v) =
      if k ∈ keysOf l then keysOf l else keysOf l ++ [k] := by
  induction l with
  | nil => simp [dictInsert, keysOf]
  | cons hd tl ih =>
    obtain ⟨k1, v1⟩ := hd
    by_cases h1 : k1 = k
    · subst h1
      simp [dictInsert, keysOf_cons, List.mem_cons]
    · have h1' : k ≠ k1 := fun he => h1 he.symm
      simp only [dictInsert, if_neg h1, keysOf_cons, ih, List.mem_cons, h1', false_or]
      by_cases h2 : k ∈ keysOf tl <;> simp [h2]

theorem nodupKeys_dictInsert {α : Type} (l : List (String × α)) (k : String) (v : α)
    (h : NodupKeys l) : NodupKeys (dictInsert l k v) := by
  unfold NodupKeys at h ⊢
  rw [keysOf_dictInsert]
  by_cases hmem : k ∈ keysOf l
  · simpa [hmem] using h
  · simp only [hmem, if_false]
    rw [List.nodup_append]
    exact ⟨h, List.nodup_singleton k, by
      intro a ha hb
      simp only [List.mem_singleton] at hb
      subst hb
      exact hmem ha⟩

theorem lookup_eq_none_of_not_mem {α : Type} (l : List (String × α)) (k : String)
    (h : k ∉ keysOf l) : lookupStr l k = none := by
  induction l with
  | nil => rfl
  | cons hd tl ih =>
    obtain ⟨k1, v1⟩ := hd
    rw [keysOf_cons] at h
    have h1 : ¬ (k1 = k) := fun he => h (he ▸ List.mem_cons_self k1 (keysOf tl))
    simp only [lookupStr, if_neg h1]
    exact ih (fun hm => h (List.mem_cons_of_mem k1 hm))

theorem lookup_dictRemove_self {α : Type} (l : List (String × α)) (k : String)
    (h : NodupKeys l) : lookupStr (dictRemove l k) k = none := by
  induction l with
  | nil => rfl
  | cons hd tl ih =>
    obtain ⟨k1, v1⟩ := hd
    unfold NodupKeys at h
    rw [keysOf_cons, List.nodup_cons] at h
    by_cases h1 : k1 = k
    · subst h1
      simp only [dictRemove, if_pos rfl]
      exact lookup_eq_none_of_not_mem tl k1 h.1
    · simp only [dictRemove, if_neg h1, lookupStr, if_neg h1]
      exact ih h.2

/-! ## Helper lemmas about the registry transition -/

theorem mergeDefaults_instanceId (r : RAG) (m sp : Option String) (hs : Option Bool) :
    (mergeDefaults r m sp hs).instanceId = r.instanceId := by
  unfold mergeDefaults
  rcases m with _ | s1 <;> rcases sp with _ | s2 <;> rcases hs with _ | b <;>
    dsimp only <;> (first | rfl | (split_ifs <;> rfl))

theorem get_or_create_existing (env : Env) (st : RegState) (u g : String)
    (m sp : Option String) (hs : Option Bool) (r0 : RAG)
    (h : lookupStr st.active_rag_sessions g = some r0) :
    get_or_create_rag_instance env st u g m sp hs =
      ({ st with active_rag_sessions :=
           dictInsert st.active_rag_sessions g (mergeDefaults r0 m sp hs) },
       .ok (mergeDefaults r0 m sp hs)) := by
  simp [get_or_create_rag_instance, h]

theorem get_or_create_fresh (env : Env) (st : RegState) (u g : String)
    (m sp : Option String) (hs : Option Bool)
    (h : lookupStr st.active_rag_sessions g = none)
    (h1 : truthy env.openai_api_key = true) (h2 : truthy env.qdrant_url = true) :
    get_or_create_rag_instance env st u g m sp hs =
      ({ active_rag_sessions :=
           dictInsert st.active_rag_sessions g (buildRag env st.nextId g m sp hs)
         nextId := st.nextId + 1 },
       .ok (buildRag env st.nextId g m sp hs)) := by
  simp [get_or_create_rag_instance, h, h1, h2]

theorem runCalls_keeps (env : Env) (u g : String) (i0 : Nat) :
    ∀ (args : List CallArgs) (st : RegState) (r : RAG),
      lookupStr st.active_rag_sessions g = some r → r.instanceId = i0 →
      NodupKeys st.active_rag_sessions →
      (∃ r1, lookupStr (runCalls env u g st args).1.active_rag_sessions g = some r1 ∧
        r1.instanceId = i0) ∧
      (runCalls env u g st args).1.nextId = st.nextId ∧
      NodupKeys (runCalls env u g st args).1.active_rag_sessions ∧
      ∀ res ∈ (runCalls env u g st args).2, ∃ r1, res = .ok r1 ∧ r1.instanceId = i0 := by
  intro args
  induction args with
  | nil =>
    intro st r h hi hn
    exact ⟨⟨r, h, hi⟩, rfl, hn, by simp [runCalls]⟩
  | cons a rest ih =>
    intro st r h hi hn
    have hres := get_or_create_existing env st u g a.model a.system_prompt a.hybrid r h
    have hmerge : (mergeDefaults r a.model a.system_prompt a.hybrid).instanceId = i0 := by
      rw [mergeDefaults_instanceId]; exact hi
    have hlook : lookupStr
        (dictInsert st.active_rag_sessions g (mergeDefaults r a.model a.system_prompt a.hybrid))
        g = some (mergeDefaults r a.model a.system_prompt a.hybrid) :=
      lookup_dictInsert_self _ _ _
    have hnd := nodupKeys_dictInsert st.active_rag_sessions g
      (mergeDefaults r a.model a.system_prompt a.hybrid) hn
    obtain ⟨hA, hB, hC, hD⟩ := ih
      { st with active_rag_sessions :=
          dictInsert st.active_rag_sessions g (mergeDefaults r a.model a.system_prompt a.hybrid) }
      (mergeDefaults r a.model a.system_prompt a.hybrid) hlook hmerge hnd
    refine ⟨?_, ?_, ?_, ?_⟩
    · simpa [runCalls, hres] using hA
    · simpa [runCalls, hres] using hB
    · simpa [runCalls, hres] using hC
    · simp only [runCalls, hres]
      intro res hresmem
      rcases List.mem_cons.mp hresmem with hfirst | hrest
    -- first call's result is the merged handle
      · exact ⟨mergeDefaults r a.model a.system_prompt a.hybrid, by simpa using hfirst, hmerge⟩
      · exact hD res hrest

/-- Closed form of the three default fields after a merge. -/
theorem mergeDefaults_fields (r : RAG) (m sp : Option String) (hs : Option Bool) :
    (mergeDefaults r m sp hs).default_llm_model_name =
      (if truthy m then m.getD "" else r.default_llm_model_name) ∧
    (mergeDefaults r m sp hs).default_system_prompt =
      (if truthy sp then sp else r.default_system_prompt) ∧
    (mergeDefaults r m sp hs).default_use_hybrid_search =
      (if hs.isSome then hs else r.default_use_hybrid_search) := by
  unfold mergeDefaults
  rcases m with _ | s1 <;> rcases sp with _ | s2 <;> rcases hs with _ | b <;>
    simp [truthy] <;> split_ifs <;> simp_all

/-! ## C1 -/

/-- C1 counterexample: resolving the already-existing tenant `"g1"` with every
override absent (in Python, `get_or_create_rag_instance(user_email, gpt_id)`
leaves `default_model = None`, `default_system_prompt = None` and
`default_use_hybrid_search = False` — the parameter default, not `None`)
erases the session's existing hybrid-search default: it was `some true`
before the call and is `some false` after, because line 131 tests
`is not None` and the absent override is `False`.  So a null/absent override
does clear an existing value, refuting the claim as stated. -/
theorem hybrid_default_overwrite_counterexample :
    (lookupStr (get_or_create_rag_instance exEnv exStOne "u@x.com" "g1"
        none none (some false)).1.active_rag_sessions "g1").map
        RAG.default_use_hybrid_search = some (some false) ∧
    (lookupStr exStOne.active_rag_sessions "g1").map
        RAG.default_use_hybrid_search = some (some true) := by
  constructor <;> rfl

/-- C1 (amended): for every resolve of an already-existing tenant session,
merging never erases the model and system-prompt defaults — a null, absent or
empty override leaves them unchanged, and supplying exactly one of them
changes only that field — but the hybrid-search default is overwritten by
every non-null override, including the absent-argument default `false`; only
an explicit null `use_hybrid_search` override leaves it unchanged.  The
handle identity, the registry's other entries and the allocation counter are
unchanged in all cases. -/
theorem merge_defaults_amended (env : Env) (st : RegState) (u g : String)
    (m sp : Option String) (hs : Option Bool) (r0 : RAG)
    (h : lookupStr st.active_rag_sessions g = some r0) :
    ∃ r1, (get_or_create_rag_instance env st u g m sp hs).2 = .ok r1 ∧
      lookupStr (get_or_create_rag_instance env st u g m sp hs).1.active_rag_sessions g
        = some r1 ∧
      r1.instanceId = r0.instanceId ∧
      (get_or_create_rag_instance env st u g m sp hs).1.nextId = st.nextId ∧
      ((m = none ∨ m = some "") →
        r1.default_llm_model_name = r0.default_llm_model_name) ∧
      ((sp = none ∨ sp = some "") →
        r1.default_system_prompt = r0.default_system_prompt) ∧
      (hs = none →
        r1.default_use_hybrid_search = r0.default_use_hybrid_search) ∧
      (∀ b, hs = some b → r1.default_use_hybrid_search = some b) ∧
      (∀ s, m = some s → s ≠ "" → sp = none → hs = none →
        r1 = { r0 with default_llm_model_name := s }) ∧
      (∀ s, sp = some s → s ≠ "" → m = none → hs = none →
        r1 = { r0 with default_system_prompt := some s }) ∧
      (∀ k, k ≠ g →
        lookupStr (get_or_create_rag_instance env st u g m sp hs).1.active_rag_sessions k
          = lookupStr st.active_rag_sessions k) := by
  rw [get_or_create_existing env st u g m sp hs r0 h]
  obtain ⟨hm, hsp, hhs⟩ := mergeDefaults_fields r0 m sp hs
  refine ⟨mergeDefaults r0 m sp hs, rfl, lookup_dictInsert_self _ _ _,
    mergeDefaults_instanceId r0 m sp hs, rfl, ?_, ?_, ?_, ?_, ?_, ?_, ?_⟩
  · rintro (rfl | rfl) <;> simpa [truthy] using hm
  · rintro (rfl | rfl) <;> simpa [truthy] using hsp
  · rintro rfl; simpa using hhs
  · rintro b rfl; simpa using hhs
  · rintro s rfl hne rfl rfl
    have : s.isEmpty = false := by
      cases he : s.isEmpty
      · rfl
      · exact absurd ((String.isEmpty_iff s).mp he) hne
    simp [mergeDefaults, this]
  · rintro s rfl hne rfl rfl
    have : s.isEmpty = false := by
      cases he : s.isEmpty
      · rfl
      · exact absurd ((String.isEmpty_iff s).mp he) hne
    simp [mergeDefaults, this]
  · intro k hk
    exact lookup_dictInsert_ne _ _ _ _ (fun he => hk he.symm)

/-- C1 amended witness: resolving the existing tenant `"g1"` with exactly the
model override `"gpt-4.1"` changes only the model default. -/
theorem merge_defaults_amended_witness :
    lookupStr exStOne.active_rag_sessions "g1" = some exRagTrue ∧
    ∃ r1, (get_or_create_rag_instance exEnv exStOne "u@x.com" "g1"
        (some "gpt-4.1") none none).2 = .ok r1 ∧
      lookupStr (get_or_create_rag_instance exEnv exStOne "u@x.com" "g1"
        (some "gpt-4.1") none none).1.active_rag_sessions "g1" = some r1 ∧
      r1.instanceId = exRagTrue.instanceId ∧
      (get_or_create_rag_instance exEnv exStOne "u@x.com" "g1"
        (some "gpt-4.1") none none).1.nextId = exStOne.nextId ∧
      (((some "gpt-4.1" : Option String) = none ∨
          (some "gpt-4.1" : Option String) = some "") →
        r1.default_llm_model_name = exRagTrue.default_llm_model_name) ∧
      (((none : Option String) = none ∨ (none : Option String) = some "") →
        r1.default_system_prompt = exRagTrue.default_system_prompt) ∧
      ((none : Option Bool) = none →
        r1.default_use_hybrid_search = exRagTrue.default_use_hybrid_search) ∧
      (∀ b, (none : Option Bool) = some b → r1.default_use_hybrid_search = some b) ∧
      (∀ s, (some "gpt-4.1" : Option String) = some s → s ≠ "" →
        (none : Option String) = none → (none : Option Bool) = none →
        r1 = { exRagTrue with default_llm_model_name := s }) ∧
      (∀ s, (none : Option String) = some s → s ≠ "" →
        (some "gpt-4.1" : Option String) = none → (none : Option Bool) = none →
        r1 = { exRagTrue with default_system_prompt := some s }) ∧
      (∀ k, k ≠ "g1" →
        lookupStr (get_or_create_rag_instance exEnv exStOne "u@x.com" "g1"
          (some "gpt-4.1") none none).1.active_rag_sessions k
          = lookupStr exStOne.active_rag_sessions k) :=
  ⟨rfl, merge_defaults_amended exEnv exStOne "u@x.com" "g1"
    (some "gpt-4.1") none none exRagTrue rfl⟩

/-! ## C2 -/

/-- C2: for one tenant key, any serial order of N ≥ 1 `get_or_create_rag_instance`
calls (the order in which the N concurrent callers acquire `sessions_lock`;
the whole lookup/insert/merge body runs under that single lock) starting from
a registry without the key and with valid configuration: exactly one handle
is constructed (the allocation counter rises by exactly one), every call
returns a handle with the same object identity — the one stored in the
registry — and the registry keeps at most one entry per key. -/
theorem registry_single_handle (env : Env) (st : RegState) (u g : String)
    (a : CallArgs) (rest : List CallArgs)
    (hkey : truthy env.openai_api_key = true) (hurl : truthy env.qdrant_url = true)
    (habs : lookupStr st.active_rag_sessions g = none)
    (hn : NodupKeys st.active_rag_sessions) :
    (runCalls env u g st (a :: rest)).1.nextId = st.nextId + 1 ∧
    (∃ r, lookupStr (runCalls env u g st (a :: rest)).1.active_rag_sessions g = some r ∧
      r.instanceId = st.nextId) ∧
    NodupKeys (runCalls env u g st (a :: rest)).1.active_rag_sessions ∧
    (∀ res ∈ (runCalls env u g st (a :: rest)).2,
      ∃ r, res = .ok r ∧ r.instanceId = st.nextId) := by
  have hres := get_or_create_fresh env st u g a.model a.system_prompt a.hybrid
    habs hkey hurl
  set rC := buildRag env st.nextId g a.model a.system_prompt a.hybrid with hrC
  have hlook : lookupStr (dictInsert st.active_rag_sessions g rC) g = some rC :=
    lookup_dictInsert_self _ _ _
  have hid : rC.instanceId = st.nextId := rfl
  have hnd := nodupKeys_dictInsert st.active_rag_sessions g rC hn
  obtain ⟨hA, hB, hC, hD⟩ := runCalls_keeps env u g st.nextId rest
    { active_rag_sessions := dictInsert st.active_rag_sessions g rC
      nextId := st.nextId + 1 } rC hlook hid hnd
  refine ⟨?_, ?_, ?_, ?_⟩
  · simpa [runCalls, hres] using hB
  · simpa [runCalls, hres] using hA
  · simpa [runCalls, hres] using hC
  · simp only [runCalls, hres]
    intro res hresmem
    rcases List.mem_cons.mp hresmem with hfirst | hrest
    · exact ⟨rC, by simpa using hfirst, hid⟩
    · exact hD res hrest

/-- C2 witness: three serialized calls for the fresh key `"g1"` construct
exactly one handle and all return it. -/
theorem registry_single_handle_witness :
    truthy exEnv.openai_api_key = true ∧
    lookupStr exStEmpty.active_rag_sessions "g1" = none ∧
    ((runCalls exEnv "u@x.com" "g1" exStEmpty
        [⟨none, none, some false⟩, ⟨some "gpt-4.1", none, none⟩,
         ⟨none, some "hi", some true⟩]).1.nextId = exStEmpty.nextId + 1 ∧
      (∃ r, lookupStr (runCalls exEnv "u@x.com" "g1" exStEmpty
          [⟨none, none, some false⟩, ⟨some "gpt-4.1", none, none⟩,
           ⟨none, some "hi", some true⟩]).1.active_rag_sessions "g1" = some r ∧
        r.instanceId = exStEmpty.nextId) ∧
      NodupKeys (runCalls exEnv "u@x.com" "g1" exStEmpty
        [⟨none, none, some false⟩, ⟨some "gpt-4.1", none, none⟩,
         ⟨none, some "hi", some true⟩]).1.active_rag_sessions ∧
      (∀ res ∈ (runCalls exEnv "u@x.com" "g1" exStEmpty
          [⟨none, none, some false⟩, ⟨some "gpt-4.1", none, none⟩,
           ⟨none, some "hi", some true⟩]).2,
        ∃ r, res = .ok r ∧ r.instanceId = exStEmpty.nextId)) :=
  ⟨rfl, rfl, registry_single_handle exEnv exStEmpty "u@x.com" "g1"
    ⟨none, none, some false⟩
    [⟨some "gpt-4.1", none, none⟩, ⟨none, some "hi", some true⟩]
    rfl rfl rfl (by simp [NodupKeys, exStEmpty, keysOf])⟩

/-! ## C8 -/

/-- C8: a first-time resolve of a tenant key with a missing mandatory
credential (OPENAI_API_KEY, checked first, or QDRANT_URL) raises the
configuration `ValueError` and leaves the registry map unchanged, so a later
resolve of the same key still takes the creation path. -/
theorem missing_config_error_no_insert (env : Env) (st : RegState) (u g : String)
    (m sp : Option String) (hs : Option Bool)
    (habs : lookupStr st.active_rag_sessions g = none)
    (hmiss : truthy env.openai_api_key = false ∨ truthy env.qdrant_url = false) :
    (get_or_create_rag_instance env st u g m sp hs).1 = st ∧
    (truthy env.openai_api_key = false →
      (get_or_create_rag_instance env st u g m sp hs).2 =
        .error "OPENAI_API_KEY not set in environment.") ∧
    (truthy env.openai_api_key = true →
      (get_or_create_rag_instance env st u g m sp hs).2 =
        .error "QDRANT_URL not set in environment.") ∧
    lookupStr (get_or_create_rag_instance env st u g m sp hs).1.active_rag_sessions g
      = none := by
  cases hko : truthy env.openai_api_key
  · refine ⟨?_, ?_, ?_, ?_⟩ <;> simp [get_or_create_rag_instance, habs, hko]
  · rcases hmiss with hk | hq
    · rw [hko] at hk; cases hk
    · refine ⟨?_, ?_, ?_, ?_⟩ <;> simp [get_or_create_rag_instance, habs, hko, hq]

/-- C8 witness: on an empty registry with no OPENAI_API_KEY, resolving `"g1"`
fails with the configuration error and adds no entry. -/
theorem missing_config_error_no_insert_witness :
    lookupStr exStEmpty.active_rag_sessions "g1" = none ∧
    truthy exEnvMissing.openai_api_key = false ∧
    ((get_or_create_rag_instance exEnvMissing exStEmpty "u@x.com" "g1"
        none none (some false)).1 = exStEmpty ∧
      (truthy exEnvMissing.openai_api_key = false →
        (get_or_create_rag_instance exEnvMissing exStEmpty "u@x.com" "g1"
          none none (some false)).2 =
          .error "OPENAI_API_KEY not set in environment.") ∧
      (truthy exEnvMissing.openai_api_key = true →
        (get_or_create_rag_instance exEnvMissing exStEmpty "u@x.com" "g1"
          none none (some false)).2 =
          .error "QDRANT_URL not set in environment.") ∧
      lookupStr (get_or_create_rag_instance exEnvMissing exStEmpty "u@x.com" "g1"
        none none (some false)).1.active_rag_sessions "g1" = none) :=
  ⟨rfl, rfl, missing_config_error_no_insert exEnvMissing exStEmpty "u@x.com" "g1"
    none none (some false) rfl (Or.inl rfl)⟩

/-! ## C3 and C4: ingestion -/

/-- Closed form of the KB-URL fetch loop: the aggregate location list contains
exactly the successfully fetched-and-stored items in input order, the failure
list contains exactly the invalid-scheme and failed-fetch URLs, and every
input URL lands in exactly one of the two. -/
theorem kbUrlLoop_spec (fetch : String → Bool × String) (urls : List String) :
    (kbUrlLoop fetch urls).1 = urls.filterMap (fun u =>
      if validScheme u then (if (fetch u).1 then some (fetch u).2 else none) else none) ∧
    (kbUrlLoop fetch urls).2 = urls.filter (fun u => !(validScheme u) || !(fetch u).1) ∧
    (kbUrlLoop fetch urls).1.length + (kbUrlLoop fetch urls).2.length = urls.length := by
  induction urls with
  | nil => exact ⟨rfl, rfl, rfl⟩
  | cons url rest ih =>
    obtain ⟨h1, h2, h3⟩ := ih
    by_cases hv : validScheme url
    · cases hf : fetch url with
      | mk b p =>
        cases b
        · refine ⟨?_, ?_, ?_⟩
          · simp [kbUrlLoop, hv, hf, List.filterMap_cons, h1]
          · simp [kbUrlLoop, hv, hf, List.filter_cons, h2]
          · simp [kbUrlLoop, hv, hf]; omega
        · refine ⟨?_, ?_, ?_⟩
          · simp [kbUrlLoop, hv, hf, List.filterMap_cons, h1]
          · simp [kbUrlLoop, hv, hf, List.filter_cons, h2]
          · simp [kbUrlLoop, hv, hf]; omega
    · refine ⟨?_, ?_, ?_⟩
      · simp [kbUrlLoop, hv, List.filterMap_cons, h1]
      · simp [kbUrlLoop, hv, List.filter_cons, h2]
      · simp [kbUrlLoop, hv]; omega

/-- C3: whenever an ingestion job's aggregate list of successfully stored
locations is empty, no engine index-update is invoked — the background KB-URL
task makes no `update_knowledge_base_from_r2` call — and in the direct-upload
path the handler returns the 400 response with no background indexing task
scheduled and the registry untouched. -/
theorem empty_aggregate_no_engine (fetch : String → Bool × String) (urls : List String)
    (env : Env) (st : RegState) (upload : String → Bool × String)
    (files : List String) (u g iud : String)
    (hloc : (process_kb_urls_task fetch urls).locations = [])
    (hstore : storedUrls upload files = []) :
    (process_kb_urls_task fetch urls).engineCalls = [] ∧
    (upload_documents_endpoint env st upload files u g iud).1 = st ∧
    (upload_documents_endpoint env st upload files u g iud).2 =
      .ok { status_code := 400
            message := "No files were successfully uploaded to R2."
            upload_results := files.map (process_uploaded_file_to_r2 upload)
            indexTask := none } := by
  refine ⟨?_, ?_, ?_⟩
  · have : (kbUrlLoop fetch urls).1 = [] := hloc
    simp [process_kb_urls_task, this]
  · simp [upload_documents_endpoint, hstore]
  · simp [upload_documents_endpoint, hstore]

/-- C3 witness: one valid URL whose fetch fails yields an empty aggregate and
no engine call; one file whose upload fails yields the 400 response. -/
theorem empty_aggregate_no_engine_witness :
    (process_kb_urls_task exFetchFail ["http://a.example/doc.pdf"]).locations = [] ∧
    storedUrls exUploadFail ["notes.pdf"] = [] ∧
    ((process_kb_urls_task exFetchFail ["http://a.example/doc.pdf"]).engineCalls = [] ∧
      (upload_documents_endpoint exEnv exStEmpty exUploadFail ["notes.pdf"]
        "u@x.com" "g1" "false").1 = exStEmpty ∧
      (upload_documents_endpoint exEnv exStEmpty exUploadFail ["notes.pdf"]
        "u@x.com" "g1" "false").2 =
        .ok { status_code := 400
              message := "No files were successfully uploaded to R2."
              upload_results := ["notes.pdf"].map (process_uploaded_file_to_r2 exUploadFail)
              indexTask := none }) :=
  ⟨by decide, by decide, empty_aggregate_no_engine exFetchFail ["http://a.example/doc.pdf"]
    exEnv exStEmpty exUploadFail ["notes.pdf"] "u@x.com" "g1" "false" (by decide) (by decide)⟩

/-- C4: in the KB-URL ingestion job, every URL whose scheme is not http/https
is skipped as a per-item failure without aborting the remaining items, every
successfully fetched item contributes its stored location in order, each
input ends up in exactly one of the two lists, and the engine's index update
is invoked exactly once with exactly the successful locations (and not at all
when there are none). -/
theorem url_ingestion_per_item (fetch : String → Bool × String) (urls : List String) :
    (process_kb_urls_task fetch urls).locations = urls.filterMap (fun u =>
      if validScheme u then (if (fetch u).1 then some (fetch u).2 else none) else none) ∧
    (process_kb_urls_task fetch urls).failures = urls.filter
      (fun u => !(validScheme u) || !(fetch u).1) ∧
    (process_kb_urls_task fetch urls).locations.length +
      (process_kb_urls_task fetch urls).failures.length = urls.length ∧
    ((process_kb_urls_task fetch urls).locations ≠ [] →
      (process_kb_urls_task fetch urls).engineCalls =
        [(process_kb_urls_task fetch urls).locations]) ∧
    ((process_kb_urls_task fetch urls).locations = [] →
      (process_kb_urls_task fetch urls).engineCalls = []) := by
  obtain ⟨h1, h2, h3⟩ := kbUrlLoop_spec fetch urls
  refine ⟨h1, h2, h3, ?_, ?_⟩
  · intro hne
    have : (kbUrlLoop fetch urls).1 ≠ [] := hne
    simp [process_kb_urls_task, List.isEmpty_iff, this]
  · intro heq
    have : (kbUrlLoop fetch urls).1 = [] := heq
    simp [process_kb_urls_task, this]

/-- C4 witness: of the three URLs the `ftp://` one is the single recorded
failure, the two successful locations are indexed in order, and indexing is
invoked exactly once with exactly those two locations. -/
theorem url_ingestion_per_item_witness :
    ((process_kb_urls_task exFetchOk exUrls3).locations = exUrls3.filterMap (fun u =>
        if validScheme u then
          (if (exFetchOk u).1 then some (exFetchOk u).2 else none) else none) ∧
      (process_kb_urls_task exFetchOk exUrls3).failures = exUrls3.filter
        (fun u => !(validScheme u) || !(exFetchOk u).1) ∧
      (process_kb_urls_task exFetchOk exUrls3).locations.length +
        (process_kb_urls_task exFetchOk exUrls3).failures.length = exUrls3.length ∧
      ((process_kb_urls_task exFetchOk exUrls3).locations ≠ [] →
        (process_kb_urls_task exFetchOk exUrls3).engineCalls =
          [(process_kb_urls_task exFetchOk exUrls3).locations]) ∧
      ((process_kb_urls_task exFetchOk exUrls3).locations = [] →
        (process_kb_urls_task exFetchOk exUrls3).engineCalls = [])) ∧
    (process_kb_urls_task exFetchOk exUrls3).locations.length = 2 ∧
    (process_kb_urls_task exFetchOk exUrls3).failures = ["ftp://b.example/y.pdf"] ∧
    (process_kb_urls_task exFetchOk exUrls3).engineCalls =
      [["r2/http://a.example/x.pdf", "r2/https://c.example/z.pdf"]] :=
  ⟨url_ingestion_per_item exFetchOk exUrls3, by decide, by decide, by decide⟩

/-! ## C5, C6, C7: streaming -/

/-- The generator's full output in closed form: one data frame per fragment in
order, then the single error frame exactly when the engine raised. -/
theorem generate_eq (es : EngineStream) :
    generate es = es.fragments.map SSEFrame.data ++
      (match es.terminal with
       | none => []
       | some m => [SSEFrame.errorFrame m]) := by
  obtain ⟨l, t⟩ := es
  simp only [generate]
  induction l with
  | nil => cases t <;> rfl
  | cons c rest ih => simpa [runList] using ih

/-- Data frames are never the distinguished error frame. -/
theorem data_frames_no_error (l : List Chunk) :
    (l.map SSEFrame.data).filter isErrorFrame = [] := by
  induction l with
  | nil => rfl
  | cons c rest ih => simp [isErrorFrame, ih]

/-- C5: every stream ends in exactly one of two mutually exclusive terminal
conditions — the engine's fragment sequence completes normally (no error
frame anywhere in the output) or the engine error is surfaced as a single
distinguished error frame, which is the last frame — and at most one error
frame is ever emitted per stream. -/
theorem stream_terminal_exclusive (es : EngineStream) :
    ((generate es).filter isErrorFrame).length ≤ 1 ∧
    (es.terminal = none ↔ (generate es).filter isErrorFrame = []) ∧
    (∀ m, es.terminal = some m →
      (generate es).getLast? = some (SSEFrame.errorFrame m) ∧
      (generate es).filter isErrorFrame = [SSEFrame.errorFrame m]) := by
  obtain ⟨l, t⟩ := es
  have hgen := generate_eq ⟨l, t⟩
  have hd := data_frames_no_error l
  cases t
  · simp only at hgen
    refine ⟨?_, ?_, ?_⟩
    · simp [hgen, List.filter_append, hd]
    · simp [hgen, List.filter_append, hd]
    · intro m hm; cases hm
  · rename_i m0
    simp only at hgen
    refine ⟨?_, ?_, ?_⟩
    · simp [hgen, List.filter_append, hd, isErrorFrame]
    · simp [hgen, List.filter_append, hd, isErrorFrame]
    · rintro m hm
      cases hm
      constructor
      · simp [hgen]
      · simp [hgen, List.filter_append, hd, isErrorFrame]

/-- C5 witness: a stream of two fragments followed by an engine failure ends
with exactly one error frame, which is the last frame. -/
theorem stream_terminal_exclusive_witness :
    ((generate ⟨["f1", "f2"], some "boom"⟩).filter isErrorFrame).length ≤ 1 ∧
    ((⟨["f1", "f2"], some "boom"⟩ : EngineStream).terminal = none ↔
      (generate ⟨["f1", "f2"], some "boom"⟩).filter isErrorFrame = []) ∧
    (∀ m, (⟨["f1", "f2"], some "boom"⟩ : EngineStream).terminal = some m →
      (generate ⟨["f1", "f2"], some "boom"⟩).getLast? = some (SSEFrame.errorFrame m) ∧
      (generate ⟨["f1", "f2"], some "boom"⟩).filter isErrorFrame =
        [SSEFrame.errorFrame m]) :=
  stream_terminal_exclusive ⟨["f1", "f2"], some "boom"⟩

/-- Unfolding of the remaining frames through one generator step. -/
theorem runFrom_eq_genStep (s : GenState) :
    runFrom s = (match genStep s with
                 | none => []
                 | some (f, s1) => f :: runFrom s1) := by
  cases s with
  | closed => rfl
  | streaming l t =>
    cases l with
    | nil => cases t <;> rfl
    | cons c rest => rfl

/-- A consumer that disconnects after `k` frames observes exactly the first
`k` frames of the full output. -/
theorem consume_eq_take : ∀ (k : Nat) (s : GenState), consume s k = (runFrom s).take k := by
  intro k
  induction k with
  | zero => intro s; rfl
  | succ k ih =>
    intro s
    rw [runFrom_eq_genStep s]
    cases hs : genStep s with
    | none => simp [consume, hs]
    | some p =>
      obtain ⟨f, s1⟩ := p
      simp [consume, hs, ih s1]

/-- C6: if the consumer disconnects after `k` frames — cancellation observed
at the suspension point between fragments — the frames observed are exactly
the first `k` frames of the stream's full output (so no fragment is produced
or emitted past the cancellation point) and at most `k` frames are ever
produced. -/
theorem stream_cancellation_halts (l : List Chunk) (t : Option String) (k : Nat) :
    consume (.streaming l t) k = (generate ⟨l, t⟩).take k ∧
    (consume (.streaming l t) k).length ≤ k := by
  have h := consume_eq_take k (.streaming l t)
  have hr : runFrom (.streaming l t) = generate ⟨l, t⟩ := rfl
  rw [hr] at h
  refine ⟨h, ?_⟩
  rw [h, List.length_take]
  exact min_le_left _ _

/-- C7: each engine fragment is emitted as exactly one discrete SSE frame in
the engine's delivery order — on normal completion the emitted frame list is
the fragment list mapped one-to-one (and through JSON encoding on the wire),
and even on an error stream the first `|fragments|` frames are exactly the
mapped fragments, so no fragment is split, merged or reordered. -/
theorem stream_frames_one_to_one (dumps errEnc : String → String) (l : List Chunk) :
    generate ⟨l, none⟩ = l.map SSEFrame.data ∧
    (∀ t, (generate ⟨l, t⟩).take l.length = l.map SSEFrame.data) ∧
    (generate ⟨l, none⟩).map (renderFrame dumps errEnc) =
      l.map (fun c => "data: " ++ dumps c ++ "\n\n") := by
  have hnone : generate ⟨l, none⟩ = l.map SSEFrame.data := by
    simpa using generate_eq ⟨l, none⟩
  refine ⟨hnone, ?_, ?_⟩
  · intro t
    have hgen := generate_eq ⟨l, t⟩
    cases t
    · simp only at hgen
      rw [hnone]
      have : l.length = (l.map SSEFrame.data).length := by simp
      rw [this, List.take_length]
    · simp only at hgen
      rw [hgen]
      have : l.length = (l.map SSEFrame.data).length := by simp
      rw [this, List.take_left]
  · rw [hnone, List.map_map]
    rfl

/-! ## C9: reset -/

/-- C9: in development mode, resetting a tenant key absent from the registry
returns 404 and changes no state at all.  Resetting a present key always
removes the registry entry (the pop at line 472 precedes the fallible
teardown and is not undone by the except branch) and always invokes the
handle's `clear_all_context` teardown, so a subsequent resolve of the same
key with valid configuration takes the creation path and constructs a fresh
handle; when the teardown and the directory removal do not raise — the
engine interface declares `clearAllContext()` without an error outcome — the
call returns 200 and the locally cached KB index directory is purged, while
an exception from `clear_all_context` or from `shutil.rmtree` is caught and
yields a 500 response with the purge not performed. -/
theorem reset_endpoint_behavior (env : Env)
    (td : RAG → Except String Unit) (rm : String → Except String Unit)
    (s : AppState) (g : String)
    (hdev : strToLower (getenvD env.environment_type "production") = "development")
    (hn : NodupKeys s.reg.active_rag_sessions) :
    (lookupStr s.reg.active_rag_sessions g = none →
      dev_reset_gpt_context_endpoint env td rm s g = (s, { status_code := 404 })) ∧
    (∀ r, lookupStr s.reg.active_rag_sessions g = some r →
      lookupStr
        (dev_reset_gpt_context_endpoint env td rm s g).1.reg.active_rag_sessions g
        = none ∧
      r.instanceId ∈ (dev_reset_gpt_context_endpoint env td rm s g).1.teardownCalls ∧
      (∀ env2 u m sp hs,
        truthy env2.openai_api_key = true → truthy env2.qdrant_url = true →
        (get_or_create_rag_instance env2
          (dev_reset_gpt_context_endpoint env td rm s g).1.reg u g m sp hs).1.nextId
          = (dev_reset_gpt_context_endpoint env td rm s g).1.reg.nextId + 1 ∧
        ∃ rN, (get_or_create_rag_instance env2
            (dev_reset_gpt_context_endpoint env td rm s g).1.reg u g m sp hs).2
            = .ok rN ∧
          rN.instanceId = (dev_reset_gpt_context_endpoint env td rm s g).1.reg.nextId) ∧
      (td r = .ok () →
        (rm (kbIndexPath env g) = .ok () ∨
          s.fsPaths.contains (kbIndexPath env g) = false) →
        (dev_reset_gpt_context_endpoint env td rm s g).2.status_code = 200 ∧
        kbIndexPath env g ∉ (dev_reset_gpt_context_endpoint env td rm s g).1.fsPaths) ∧
      (∀ e, td r = .error e →
        (dev_reset_gpt_context_endpoint env td rm s g).2.status_code = 500 ∧
        (dev_reset_gpt_context_endpoint env td rm s g).1.fsPaths = s.fsPaths) ∧
      (∀ e, td r = .ok () → s.fsPaths.contains (kbIndexPath env g) = true →
        rm (kbIndexPath env g) = .error e →
        (dev_reset_gpt_context_endpoint env td rm s g).2.status_code = 500 ∧
        (dev_reset_gpt_context_endpoint env td rm s g).1.fsPaths = s.fsPaths)) := by
  constructor
  · intro habs
    simp [dev_reset_gpt_context_endpoint, hdev, habs]
  · intro r hr
    have hrem : lookupStr (dictRemove s.reg.active_rag_sessions g) g = none :=
      lookup_dictRemove_self s.reg.active_rag_sessions g hn
    have hfreshAll : ∀ (st1 : AppState),
        st1.reg = { s.reg with
          active_rag_sessions := dictRemove s.reg.active_rag_sessions g } →
        ∀ env2 u m sp hs,
        truthy env2.openai_api_key = true → truthy env2.qdrant_url = true →
        (get_or_create_rag_instance env2 st1.reg u g m sp hs).1.nextId
          = st1.reg.nextId + 1 ∧
        ∃ rN, (get_or_create_rag_instance env2 st1.reg u g m sp hs).2 = .ok rN ∧
          rN.instanceId = st1.reg.nextId := by
      intro st1 hst env2 u m sp hs hkey hurl
      rw [hst]
      have hfresh := get_or_create_fresh env2
        { s.reg with active_rag_sessions := dictRemove s.reg.active_rag_sessions g }
        u g m sp hs hrem hkey hurl
      exact ⟨by rw [hfresh], buildRag env2 s.reg.nextId g m sp hs, by rw [hfresh], rfl⟩
    cases ht : td r with
    | error e0 =>
      have hend : dev_reset_gpt_context_endpoint env td rm s g =
          ({ reg := { s.reg with
               active_rag_sessions := dictRemove s.reg.active_rag_sessions g }
             fsPaths := s.fsPaths
             teardownCalls := s.teardownCalls ++ [r.instanceId] },
           { status_code := 500 }) := by
        simp [dev_reset_gpt_context_endpoint, hdev, hr, ht]
      refine ⟨by simpa [hend] using hrem, by simp [hend],
        by rw [hend]; exact hfreshAll _ rfl, ?_, ?_, ?_⟩
      · intro hok
        simp at hok
      · intro e he
        cases he
        simp [hend]
      · intro e h1
        simp at h1
    | ok u0 =>
      obtain ⟨⟩ := u0
      cases hc : s.fsPaths.contains (kbIndexPath env g) with
      | false =>
        have hnotmem : kbIndexPath env g ∉ s.fsPaths := by
          simpa using hc
        have hend : dev_reset_gpt_context_endpoint env td rm s g =
            ({ reg := { s.reg with
                 active_rag_sessions := dictRemove s.reg.active_rag_sessions g }
               fsPaths := s.fsPaths
               teardownCalls := s.teardownCalls ++ [r.instanceId] },
             { status_code := 200 }) := by
          simp [dev_reset_gpt_context_endpoint, hdev, hr, ht, hnotmem]
        refine ⟨by simpa [hend] using hrem, by simp [hend],
          by rw [hend]; exact hfreshAll _ rfl, ?_, ?_, ?_⟩
        · intro _ _
          exact ⟨by simp [hend], by simpa [hend] using hnotmem⟩
        · intro e he
          simp at he
        · intro e _ h2
          simp at h2
      | true =>
        have hmem : kbIndexPath env g ∈ s.fsPaths := by
          simpa using hc
        cases hrm : rm (kbIndexPath env g) with
        | error e1 =>
          have hend : dev_reset_gpt_context_endpoint env td rm s g =
              ({ reg := { s.reg with
                   active_rag_sessions := dictRemove s.reg.active_rag_sessions g }
                 fsPaths := s.fsPaths
                 teardownCalls := s.teardownCalls ++ [r.instanceId] },
               { status_code := 500 }) := by
            simp [dev_reset_gpt_context_endpoint, hdev, hr, ht, hmem, hrm]
          refine ⟨by simpa [hend] using hrem, by simp [hend],
            by rw [hend]; exact hfreshAll _ rfl, ?_, ?_, ?_⟩
          · intro _ hdisj
            rcases hdisj with h1 | h2
            · simp at h1
            · simp at h2
          · intro e he
            simp at he
          · intro e _ _ h3
            cases h3
            simp [hend]
        | ok u1 =>
          obtain ⟨⟩ := u1
          have hend : dev_reset_gpt_context_endpoint env td rm s g =
              ({ reg := { s.reg with
                   active_rag_sessions := dictRemove s.reg.active_rag_sessions g }
                 fsPaths := s.fsPaths.filter (fun p => p ≠ kbIndexPath env g)
                 teardownCalls := s.teardownCalls ++ [r.instanceId] },
               { status_code := 200 }) := by
            simp [dev_reset_gpt_context_endpoint, hdev, hr, ht, hmem, hrm]
          refine ⟨by simpa [hend] using hrem, by simp [hend],
            by rw [hend]; exact hfreshAll _ rfl, ?_, ?_, ?_⟩
          · intro _ _
            exact ⟨by simp [hend], by simp [hend, List.mem_filter]⟩
          · intro e he
            simp at he
          · intro e _ _ h3
            simp at h3

/-- C9 witness: in development mode with succeeding teardown and directory
removal, resetting the present key `"g1"` evicts the session, records its
teardown, purges its KB index directory and returns 200, and the 404 and 500
clauses hold vacuously or conditionally as stated. -/
theorem reset_endpoint_behavior_witness :
    strToLower (getenvD exEnvDev.environment_type "production") = "development" ∧
    ((lookupStr exAppState.reg.active_rag_sessions "g1" = none →
        dev_reset_gpt_context_endpoint exEnvDev exTeardownOk exRmtreeOk exAppState "g1" =
          (exAppState, { status_code := 404 })) ∧
      (∀ r, lookupStr exAppState.reg.active_rag_sessions "g1" = some r →
        lookupStr (dev_reset_gpt_context_endpoint exEnvDev exTeardownOk exRmtreeOk
          exAppState "g1").1.reg.active_rag_sessions "g1" = none ∧
        r.instanceId ∈ (dev_reset_gpt_context_endpoint exEnvDev exTeardownOk exRmtreeOk
          exAppState "g1").1.teardownCalls ∧
        (∀ env2 u m sp hs,
          truthy env2.openai_api_key = true → truthy env2.qdrant_url = true →
          (get_or_create_rag_instance env2 (dev_reset_gpt_context_endpoint exEnvDev
            exTeardownOk exRmtreeOk exAppState "g1").1.reg u "g1" m sp hs).1.nextId
            = (dev_reset_gpt_context_endpoint exEnvDev exTeardownOk exRmtreeOk
                exAppState "g1").1.reg.nextId + 1 ∧
          ∃ rN, (get_or_create_rag_instance env2 (dev_reset_gpt_context_endpoint exEnvDev
              exTeardownOk exRmtreeOk exAppState "g1").1.reg u "g1" m sp hs).2
              = .ok rN ∧
            rN.instanceId = (dev_reset_gpt_context_endpoint exEnvDev exTeardownOk
              exRmtreeOk exAppState "g1").1.reg.nextId) ∧
        (exTeardownOk r = .ok () →
          (exRmtreeOk (kbIndexPath exEnvDev "g1") = .ok () ∨
            exAppState.fsPaths.contains (kbIndexPath exEnvDev "g1") = false) →
          (dev_reset_gpt_context_endpoint exEnvDev exTeardownOk exRmtreeOk
            exAppState "g1").2.status_code = 200 ∧
          kbIndexPath exEnvDev "g1" ∉ (dev_reset_gpt_context_endpoint exEnvDev
            exTeardownOk exRmtreeOk exAppState "g1").1.fsPaths) ∧
        (∀ e, exTeardownOk r = .error e →
          (dev_reset_gpt_context_endpoint exEnvDev exTeardownOk exRmtreeOk
            exAppState "g1").2.status_code = 500 ∧
          (dev_reset_gpt_context_endpoint exEnvDev exTeardownOk exRmtreeOk
            exAppState "g1").1.fsPaths = exAppState.fsPaths) ∧
        (∀ e, exTeardownOk r = .ok () →
          exAppState.fsPaths.contains (kbIndexPath exEnvDev "g1") = true →
          exRmtreeOk (kbIndexPath exEnvDev "g1") = .error e →
          (dev_reset_gpt_context_endpoint exEnvDev exTeardownOk exRmtreeOk
            exAppState "g1").2.status_code = 500 ∧
          (dev_reset_gpt_context_endpoint exEnvDev exTeardownOk exRmtreeOk
            exAppState "g1").1.fsPaths = exAppState.fsPaths))) :=
  ⟨by decide, reset_endpoint_behavior exEnvDev exTeardownOk exRmtreeOk exAppState "g1"
    (by decide) (by simp [NodupKeys, exAppState, exStOne, keysOf])⟩

/-! ## C10: synchronous chat-file indexing -/

/-- C10: the upload-chat-files handler indexes synchronously, before any
response is produced — the response reflects the index outcome.  With valid
configuration the call returns normally and: if at least one file was stored
and the engine's index update raises, the response has `success = false` and
carries the error message; if at least one file was stored and indexing
succeeds, the response has `success = true` with exactly the stored
locations and `processing = true`; if every file failed to store, the engine
is never invoked and the response still has `success = true` with an empty
location list and `processing = false`. -/
theorem chat_files_sync_indexing (env : Env) (st : RegState)
    (upload : String → Bool × String)
    (updUser : String → List String → Except String Unit)
    (updKb : List String → Except String Unit)
    (files : List String) (u g gn iud : String)
    (hkey : truthy env.openai_api_key = true) (hurl : truthy env.qdrant_url = true) :
    ∃ call resp,
      (upload_chat_files_endpoint env st upload updUser updKb files u g gn iud).2 =
        .ok (call, resp) ∧
      resp.file_urls = (if storedUrls upload files = [] then []
        else storedUrls upload files) ∧
      (storedUrls upload files = [] →
        call = none ∧ resp.success = true ∧ resp.processing = false ∧
        resp.message = "Processed and indexed 0 files") ∧
      (storedUrls upload files ≠ [] →
        call = some (strToLower iud == "true", storedUrls upload files) ∧
        (chatIndexCall updUser updKb iud (get_session_id u g)
            (storedUrls upload files) = .ok () →
          resp.success = true ∧ resp.processing = true ∧
          resp.message = "Processed and indexed " ++
            toString (storedUrls upload files).length ++ " files") ∧
        (∀ e, chatIndexCall updUser updKb iud (get_session_id u g)
            (storedUrls upload files) = .error e →
          resp.success = false ∧ resp.processing = false ∧
          resp.message = "Failed to index " ++
            toString (storedUrls upload files).length ++ " files: " ++ e)) := by
  have hok : ∃ st1 r, get_or_create_rag_instance env st u g none none (some false) =
      (st1, .ok r) := by
    cases hl : lookupStr st.active_rag_sessions g with
    | none =>
      exact ⟨_, _, get_or_create_fresh env st u g none none (some false) hl hkey hurl⟩
    | some r0 =>
      exact ⟨_, _, get_or_create_existing env st u g none none (some false) r0 hl⟩
  obtain ⟨st1, r, hres⟩ := hok
  by_cases hempty : storedUrls upload files = []
  · refine ⟨none,
      { success := true
        message := "Processed and indexed 0 files"
        file_urls := []
        processing := false }, ?_, ?_, ?_, ?_⟩
    · simp [upload_chat_files_endpoint, hres, hempty]
    · simp [hempty]
    · intro _; exact ⟨rfl, rfl, rfl, rfl⟩
    · intro hne; exact absurd hempty hne
  · have hproc : decide (0 < (storedUrls upload files).length) = true := by
      simp only [decide_eq_true_eq]
      exact List.length_pos.mpr hempty
    cases hidx : chatIndexCall updUser updKb iud (get_session_id u g)
      (storedUrls upload files) with
    | ok u0 =>
      obtain ⟨⟩ := u0
      refine ⟨some (strToLower iud == "true", storedUrls upload files),
        { success := true
          message := "Processed and indexed " ++
            toString (storedUrls upload files).length ++ " files"
          file_urls := storedUrls upload files
          processing := decide (0 < (storedUrls upload files).length) },
        ?_, ?_, ?_, ?_⟩
      · simp [upload_chat_files_endpoint, hres, hempty, hidx]
      · simp [hempty]
      · intro h0; exact absurd h0 hempty
      · intro _
        refine ⟨rfl, fun _ => ⟨rfl, hproc, rfl⟩, fun e he => ?_⟩
        simp at he
    | error e =>
      refine ⟨some (strToLower iud == "true", storedUrls upload files),
        { success := false
          message := "Failed to index " ++
            toString (storedUrls upload files).length ++ " files: " ++ e
          file_urls := storedUrls upload files
          processing := false },
        ?_, ?_, ?_, ?_⟩
      · simp [upload_chat_files_endpoint, hres, hempty, hidx]
      · simp [hempty]
      · intro h0; exact absurd h0 hempty
      · intro _
        refine ⟨rfl, fun hc => ?_, fun e1 he1 => ?_⟩
        · simp at hc
        · cases he1
          exact ⟨rfl, rfl, rfl⟩

/-- C10 witness: one stored file whose synchronous user-document indexing
fails produces the `success = false` response carrying the error message. -/
theorem chat_files_sync_indexing_witness :
    truthy exEnv.openai_api_key = true ∧
    (∃ call resp,
      (upload_chat_files_endpoint exEnv exStEmpty exUploadOk exUpdUserFail exUpdKbOk
        ["notes.pdf"] "u@x.com" "g1" "my gpt" "true").2 = .ok (call, resp) ∧
      resp.file_urls = (if storedUrls exUploadOk ["notes.pdf"] = [] then []
        else storedUrls exUploadOk ["notes.pdf"]) ∧
      (storedUrls exUploadOk ["notes.pdf"] = [] →
        call = none ∧ resp.success = true ∧ resp.processing = false ∧
        resp.message = "Processed and indexed 0 files") ∧
      (storedUrls exUploadOk ["notes.pdf"] ≠ [] →
        call = some (strToLower "true" == "true", storedUrls exUploadOk ["notes.pdf"]) ∧
        (chatIndexCall exUpdUserFail exUpdKbOk "true" (get_session_id "u@x.com" "g1")
            (storedUrls exUploadOk ["notes.pdf"]) = .ok () →
          resp.success = true ∧ resp.processing = true ∧
          resp.message = "Processed and indexed " ++
            toString (storedUrls exUploadOk ["notes.pdf"]).length ++ " files") ∧
        (∀ e, chatIndexCall exUpdUserFail exUpdKbOk "true" (get_session_id "u@x.com" "g1")
            (storedUrls exUploadOk ["notes.pdf"]) = .error e →
          resp.success = false ∧ resp.processing = false ∧
          resp.message = "Failed to index " ++
            toString (storedUrls exUploadOk ["notes.pdf"]).length ++ " files: " ++ e))) :=
  ⟨rfl, chat_files_sync_indexing exEnv exStEmpty exUploadOk exUpdUserFail exUpdKbOk
    ["notes.pdf"] "u@x.com" "g1" "my gpt" "true" rfl rfl⟩

end RagApp
